import Mathlib

/-!
Verification of the ARTVIS paper-analysis backend.

The development shallowly embeds the two source files of the repository,
`backend/app/analyzer.py` (the `PaperAnalyzer` class: `extract_topics`,
`find_related_papers`, `create_graph_data`) and `backend/app/main.py`
(the `/analyze-paper` FastAPI endpoint), and proves the specified
properties about the embedding.

External collaborators (the OpenAI oracle, the arXiv search provider and
the PDF text extractor) are modelled as function parameters; the Python
standard-library string operations and `json.loads` are re-implemented
below on `List Char` so that every definition evaluates inside the kernel.
-/

namespace Artvis

/-! ## String helpers (Python string semantics on `List Char`) -/

/-- Python `str.strip()` (restricted to ASCII whitespace): drop leading and
trailing whitespace characters. -/
def strTrim (s : String) : String :=
  String.mk (((s.data.dropWhile Char.isWhitespace).reverse.dropWhile
    Char.isWhitespace).reverse)

/-- Python `str.split(sep)` for a one-character separator, on `List Char`:
splitting an empty string yields one empty field, and the result is never
empty. -/
def splitChar (sep : Char) : List Char → List (List Char)
  | [] => [[]]
  | c :: cs =>
    let r := splitChar sep cs
    if c = sep then [] :: r
    else
      match r with
      | [] => [[c]]
      | h :: t => (c :: h) :: t

/-- Python `str.split(sep)` for a one-character separator. -/
def strSplit (s : String) (sep : Char) : List String :=
  (splitChar sep s.data).map String.mk

/-- Python `s[:n]`: the first `n` code points of `s`. -/
def strTake (s : String) (n : Nat) : String :=
  String.mk (s.data.take n)

/-- Python `len(s)`: the number of code points of `s`. -/
def strLen (s : String) : Nat :=
  s.data.length

/-- Python `str.endswith(suffix)`. -/
def strEndsWith (s suffix : String) : Bool :=
  decide (s.data.drop (s.data.length - suffix.data.length) = suffix.data)

/-! ## Data model

`Topic` embeds one element of the JSON array the oracle returns: a dict
with keys `topic`, `importance` and (optionally) `subtopics`.  The
`subtopics` field is an `Option` because the Python code accesses it with
`topic.get('subtopics', [])`, i.e. the key may be absent. -/

/-- A subtopic dict: keys `topic` and `importance`. -/
structure Subtopic where
  topic : String
  importance : Int
deriving DecidableEq, Inhabited

/-- A main-topic dict: keys `topic`, `importance` and the optional key
`subtopics` (absent key modelled as `none`). -/
structure Topic where
  topic : String
  importance : Int
  subtopics : Option (List Subtopic)
deriving DecidableEq, Inhabited

/-- Python `topic.get('subtopics', [])`. -/
def Topic.subs (t : Topic) : List Subtopic :=
  t.subtopics.getD []

/-- One related-paper record appended by `find_related_papers`. -/
structure RelatedPaper where
  id : String
  title : String
  summary : String
  published : String
  authors : List String
  topic : String
deriving DecidableEq, Inhabited

/-- One graph node produced by `create_graph_data`. -/
structure Node where
  id : String
  name : String
  val : Int
  group : String
deriving DecidableEq, Inhabited

/-- One graph link produced by `create_graph_data`. -/
structure Link where
  source : String
  target : String
  value : Int
deriving DecidableEq, Inhabited

/-- The `{"nodes": ..., "links": ...}` dictionary returned by
`create_graph_data`. -/
structure GraphData where
  nodes : List Node
  links : List Link
deriving DecidableEq, Inhabited

/-! ## `create_graph_data` (analyzer.py lines 270-329) -/

/-- The display title of the main node:
`main_paper_title[:50] + "..." if len(main_paper_title) > 50 else main_paper_title`. -/
def shortTitle (mainPaperTitle : String) : String :=
  if strLen mainPaperTitle > 50 then strTake mainPaperTitle 50 ++ "..."
  else mainPaperTitle

/-- The main paper node `{"id": "main", "name": short_title, "val": 20, "group": "main"}`. -/
def mainNode (mainPaperTitle : String) : Node :=
  { id := "main", name := shortTitle mainPaperTitle, val := 20, group := "main" }

/-- `main_topic_id = f"topic_{topic['topic']}"`. -/
def topicId (t : Topic) : String :=
  "topic_" ++ t.topic

/-- The node appended for a main topic. -/
def topicNode (t : Topic) : Node :=
  { id := topicId t, name := t.topic, val := t.importance * 2, group := "topic" }

/-- The link appended from the main node to a main topic's node. -/
def mainLink (t : Topic) : Link :=
  { source := "main", target := topicId t, value := t.importance }

/-- `subtopic_id = f"subtopic_{main_topic_id}_{subtopic['topic']}"`. -/
def subtopicId (mainTopicId : String) (s : Subtopic) : String :=
  "subtopic_" ++ mainTopicId ++ "_" ++ s.topic

/-- The node appended for a subtopic. -/
def subtopicNode (mainTopicId : String) (s : Subtopic) : Node :=
  { id := subtopicId mainTopicId s, name := s.topic, val := s.importance,
    group := "subtopic" }

/-- The link appended from a main topic's node to one of its subtopic nodes. -/
def subLink (mainTopicId : String) (s : Subtopic) : Link :=
  { source := mainTopicId, target := subtopicId mainTopicId s, value := s.importance }

/-- All nodes appended during one iteration of the topic loop: the topic's
own node followed by its subtopic nodes in input order. -/
def topicNodes (t : Topic) : List Node :=
  topicNode t :: t.subs.map (subtopicNode (topicId t))

/-- All links appended during one iteration of the topic loop. -/
def topicLinks (t : Topic) : List Link :=
  mainLink t :: t.subs.map (subLink (topicId t))

/-- `create_graph_data(self, main_paper_title, topics, related_papers)`:
starts from the main node, then for each topic in input order appends the
topic node, the main→topic link, and for each subtopic in input order the
subtopic node and topic→subtopic link; returns the graph dictionary
together with `related_papers` unchanged. -/
def create_graph_data (mainPaperTitle : String) (topics : List Topic)
    (relatedPapers : List RelatedPaper) : GraphData × List RelatedPaper :=
  ({ nodes := mainNode mainPaperTitle :: (topics.map topicNodes).flatten,
     links := (topics.map topicLinks).flatten },
   relatedPapers)

/-! ## `find_related_papers` (analyzer.py lines 170-268)

The arXiv HTTP call is an external collaborator.  It is modelled as a
function from the query string to a `QueryResponse`; the percent-encoding
`urllib.parse.quote` applied before the call is an injective transport
detail absorbed into the abstract provider.  One XML `<entry>` element is
modelled by which of its child elements are present and what text each
carries: `none` means the child element is absent (`find` returned
`None`), `some none` means the element is present but its `.text` is
`None` (in Python the subsequent `.strip()`/`.split()` then raises, and
the per-entry handler skips the entry). -/

/-- One `<entry>` element of the provider's XML: child-element presence and
text for `id`, `title`, `summary`, `published`, and one inner `<name>`
slot per `<author>` element. -/
structure Entry where
  id : Option (Option String)
  title : Option (Option String)
  summary : Option (Option String)
  published : Option (Option String)
  authors : List (Option (Option String))
deriving DecidableEq, Inhabited

/-- Outcome of one `requests.get` call to the provider: `err` models a
raised exception (timeout or transport error); `ok status body` models a
response with the given status code, where `body = none` means
`ET.fromstring` raises on the response text (unparseable envelope) and
`body = some entries` is the parsed list of `<entry>` elements. -/
inductive QueryResponse where
  | err : QueryResponse
  | ok (status : Nat) (body : Option (List Entry)) : QueryResponse
deriving DecidableEq, Inhabited

/-- Evaluation of one extracted field: absent element yields the sentinel,
present element with `None` text raises (entry-level `none`), otherwise
the Python post-processing `f` is applied to the text. -/
def fieldOr (elemText : Option (Option String)) (f : String → String)
    (sentinel : String) : Option String :=
  match elemText with
  | none => some sentinel
  | some none => none
  | some (some t) => some (f t)

/-- One `<author>` element: if the inner `<name>` element is absent the
author is skipped; if its text is `None` the `.strip()` raises; otherwise
the stripped name is appended. -/
def processAuthor : Option (Option String) → Option (List String)
  | none => some []
  | some none => none
  | some (some t) => some [strTrim t]

/-- The author loop: collects the stripped names of the author elements
that carry a `<name>` child, failing if any present name text is `None`. -/
def collectAuthors : List (Option (Option String)) → Option (List String)
  | [] => some []
  | a :: as => do
    let b ← processAuthor a
    let bs ← collectAuthors as
    pure (b ++ bs)

/-- The body of the per-entry loop: builds one `RelatedPaper` from an
`<entry>`, substituting the documented sentinel for each absent field;
returns `none` when the Python code would raise inside the entry (and
the entry is skipped by the `except ... continue`). -/
def processEntry (topicName : String) (e : Entry) : Option RelatedPaper := do
  let pid ← fieldOr e.id (fun t => (strSplit t ('/')).getLastD "") "id not found"
  let ptitle ← fieldOr e.title strTrim "title not found"
  let psummary ← fieldOr e.summary strTrim "no abstract available"
  let ppublished ← fieldOr e.published (fun t => (strSplit t ('T')).headD "")
    "date not available"
  let authors ← collectAuthors e.authors
  pure { id := pid, title := ptitle, summary := psummary, published := ppublished,
         authors := authors, topic := topicName }

/-- The body of the per-query loop: a raised request, a non-200 status or
an unparseable envelope contributes nothing; a 200 response with a parsed
envelope contributes the successfully processed entries in response
order. -/
def searchTopic (provider : String → QueryResponse) (topicName : String) :
    List RelatedPaper :=
  match provider topicName with
  | QueryResponse.err => []
  | QueryResponse.ok status body =>
    if status = 200 then
      match body with
      | none => []
      | some entries => entries.filterMap (processEntry topicName)
    else []

/-- `all_topics`: every main topic name in input order followed by every
subtopic name in input order (no deduplication). -/
def allTopics (topics : List Topic) : List String :=
  topics.map Topic.topic ++ topics.flatMap (fun t => t.subs.map Subtopic.topic)

/-- `find_related_papers(self, topics)`: iterate over `all_topics`,
appending each query's results in order. -/
def find_related_papers (provider : String → QueryResponse)
    (topics : List Topic) : List RelatedPaper :=
  (allTopics topics).flatMap (searchTopic provider)

/-! ## `json.loads` model

`extract_topics` feeds the oracle's reply to `json.loads`.  The parser
below embeds the JSON grammar accepted by the Python standard library
(numbers are kept as their source lexeme, since only the shape of the
top-level value matters to the code under verification).  The recursion
is fuelled; `json_loads` supplies one unit of fuel per input character,
which is enough because every recursive step consumes input. -/

/-- A parsed JSON value. -/
inductive Json where
  | null : Json
  | bool (b : Bool) : Json
  | num (lexeme : String) : Json
  | str (value : String) : Json
  | arr (elems : List Json) : Json
  | obj (members : List (String × Json)) : Json
deriving Inhabited

/-- JSON insignificant whitespace. -/
def jsonWs (c : Char) : Bool :=
  c = ' ' || c = '\t' || c = '\n' || c = '\r'

/-- Skip insignificant whitespace. -/
def skipWs : List Char → List Char
  | [] => []
  | c :: cs => if jsonWs c then skipWs cs else c :: cs

/-- Value of one hexadecimal digit. -/
def hexVal (c : Char) : Option Nat :=
  if ('0' ≤ c ∧ c ≤ '9') then some (c.toNat - 48)
  else if ('a' ≤ c ∧ c ≤ 'f') then some (c.toNat - 87)
  else if ('A' ≤ c ∧ c ≤ 'F') then some (c.toNat - 55)
  else none

/-- The character denoted by a one-character escape sequence. -/
def escChar (c : Char) : Option Char :=
  if c = '"' then some ('"')
  else if c = '\\' then some ('\\')
  else if c = '/' then some ('/')
  else if c = 'b' then some (Char.ofNat 8)
  else if c = 'f' then some (Char.ofNat 12)
  else if c = 'n' then some ('\n')
  else if c = 'r' then some ('\r')
  else if c = 't' then some ('\t')
  else none

/-- Parse the body of a JSON string (the opening quote already consumed),
returning the decoded characters and the rest of the input. -/
def parseStrChars : Nat → List Char → Option (List Char × List Char)
  | 0, _ => none
  | fuel + 1, cs =>
    match cs with
    | [] => none
    | c :: rest =>
      if c = '"' then some ([], rest)
      else if c = '\\' then
        match rest with
        | [] => none
        | e :: r2 =>
          if e = 'u' then
            match r2 with
            | a :: b :: c3 :: d :: r3 => do
              let ha ← hexVal a
              let hb ← hexVal b
              let hc ← hexVal c3
              let hd ← hexVal d
              let p ← parseStrChars fuel r3
              pure (Char.ofNat (((ha * 16 + hb) * 16 + hc) * 16 + hd) :: p.1, p.2)
            | _ => none
          else do
            let ec ← escChar e
            let p ← parseStrChars fuel r2
            pure (ec :: p.1, p.2)
      else if c.toNat < 32 then none
      else do
        let p ← parseStrChars fuel rest
        pure (c :: p.1, p.2)

/-- Consume an expected literal tail such as `rue` of `true`. -/
def dropLit : List Char → List Char → Option (List Char)
  | [], cs => some cs
  | _ :: _, [] => none
  | l :: ls, c :: cs => if c = l then dropLit ls cs else none

/-- Integer part of a JSON number: `0` or a nonzero digit followed by
digits. -/
def parseIntPart : List Char → Option (List Char × List Char)
  | [] => none
  | c :: cs =>
    if c = '0' then some ([c], cs)
    else if c.isDigit then
      let p := cs.span Char.isDigit
      some (c :: p.1, p.2)
    else none

/-- Optional fraction part of a JSON number. -/
def parseFracPart : List Char → Option (List Char × List Char)
  | '.' :: cs =>
    (match cs.span Char.isDigit with
     | ([], _) => none
     | (ds, rest) => some (('.') :: ds, rest))
  | cs => some ([], cs)

/-- Optional exponent part of a JSON number. -/
def parseExpPart : List Char → Option (List Char × List Char)
  | c :: cs =>
    if c = 'e' ∨ c = 'E' then
      let p :=
        match cs with
        | s :: cs2 => if s = '+' ∨ s = '-' then ([s], cs2) else ([], cs)
        | [] => ([], cs)
      match p.2.span Char.isDigit with
      | ([], _) => none
      | (ds, rest) => some (c :: p.1 ++ ds, rest)
    else some ([], c :: cs)
  | [] => some ([], [])

/-- Parse a JSON number, returning its lexeme. -/
def parseNumber (cs : List Char) : Option (List Char × List Char) := do
  let sp :=
    match cs with
    | '-' :: r => ([('-' : Char)], r)
    | _ => (([] : List Char), cs)
  let ip ← parseIntPart sp.2
  let fp ← parseFracPart ip.2
  let ep ← parseExpPart fp.2
  pure (sp.1 ++ ip.1 ++ fp.1 ++ ep.1, ep.2)

mutual

/-- Parse one JSON value after skipping leading whitespace. -/
def parseValue : Nat → List Char → Option (Json × List Char)
  | 0, _ => none
  | fuel + 1, cs =>
    match skipWs cs with
    | [] => none
    | c :: rest =>
      if c = '{' then parseObjBody fuel rest
      else if c = '[' then parseArrBody fuel rest
      else if c = '"' then
        match parseStrChars (rest.length + 1) rest with
        | some (sc, r) => some (Json.str (String.mk sc), r)
        | none => none
      else if c = 't' then
        match dropLit (['r', 'u', 'e']) rest with
        | some r => some (Json.bool true, r)
        | none => none
      else if c = 'f' then
        match dropLit (['a', 'l', 's', 'e']) rest with
        | some r => some (Json.bool false, r)
        | none => none
      else if c = 'n' then
        match dropLit (['u', 'l', 'l']) rest with
        | some r => some (Json.null, r)
        | none => none
      else
        match parseNumber (c :: rest) with
        | some (lex, r) => some (Json.num (String.mk lex), r)
        | none => none

/-- Parse an array body (the `[` already consumed). -/
def parseArrBody : Nat → List Char → Option (Json × List Char)
  | 0, _ => none
  | fuel + 1, cs =>
    match skipWs cs with
    | ']' :: rest => some (Json.arr [], rest)
    | cs1 =>
      match parseArrItems fuel cs1 with
      | some (vs, r) => some (Json.arr vs, r)
      | none => none

/-- Parse one or more comma-separated array items up to `]`. -/
def parseArrItems : Nat → List Char → Option (List Json × List Char)
  | 0, _ => none
  | fuel + 1, cs =>
    match parseValue fuel cs with
    | none => none
    | some (v, r1) =>
      match skipWs r1 with
      | ',' :: r2 =>
        (match parseArrItems fuel r2 with
         | some (vs, r3) => some (v :: vs, r3)
         | none => none)
      | ']' :: r2 => some ([v], r2)
      | _ => none

/-- Parse an object body (the `{` already consumed). -/
def parseObjBody : Nat → List Char → Option (Json × List Char)
  | 0, _ => none
  | fuel + 1, cs =>
    match skipWs cs with
    | '}' :: rest => some (Json.obj [], rest)
    | cs1 =>
      match parseObjItems fuel cs1 with
      | some (ms, r) => some (Json.obj ms, r)
      | none => none

/-- Parse one or more comma-separated object members up to `}`. -/
def parseObjItems : Nat → List Char → Option (List (String × Json) × List Char)
  | 0, _ => none
  | fuel + 1, cs =>
    match skipWs cs with
    | '"' :: r1 =>
      (match parseStrChars (r1.length + 1) r1 with
       | none => none
       | some (key, r2) =>
         match skipWs r2 with
         | ':' :: r3 =>
           (match parseValue fuel r3 with
            | none => none
            | some (v, r4) =>
              match skipWs r4 with
              | ',' :: r5 =>
                (match parseObjItems fuel r5 with
                 | some (ms, r6) => some ((String.mk key, v) :: ms, r6)
                 | none => none)
              | '}' :: r5 => some ([(String.mk key, v)], r5)
              | _ => none)
         | _ => none)
    | _ => none

end

/-- Model of `json.loads`: parse one JSON value and require only
whitespace to remain; `none` models a raised `JSONDecodeError`. -/
def json_loads (s : String) : Option Json :=
  match parseValue (s.data.length + 1) s.data with
  | some (j, rest) => if skipWs rest = [] then some j else none
  | none => none

/-! ## `extract_topics` (analyzer.py lines 98-168)

The OpenAI chat call is the external oracle; `extract_topics` is modelled
as a function of the raw reply text `response.choices[0].message.content`.
The code strips the reply, parses it with `json.loads` (a parse failure
raises and propagates), and raises `ValueError` when the parsed value is
not a list; on success it returns the parsed list. -/

/-- `extract_topics` applied to the oracle's raw reply. -/
def extract_topics (reply : String) : Except String (List Json) :=
  match json_loads (strTrim reply) with
  | none => Except.error "json decode error: expecting value"
  | some (Json.arr topics) => Except.ok topics
  | some _ => Except.error "openai did not return a list of topics"

/-! ## The `/analyze-paper` endpoint (main.py lines 24-65)

The stages that wrap external collaborators (PyPDF2 text extraction and
the oracle-backed topic extraction, whose reply-shape handling is settled
on `extract_topics` above and which hands its dynamically-typed dicts on
as `Topic` records) are parameters; the search and assembly stages are
the embedded functions.  A raised `fastapi.HTTPException` is an
`Exception`, so the blanket `except Exception` of the endpoint catches it
like any other error: `Exc` distinguishes the two and `excStr` is
Starlette's `HTTPException.__str__`, namely `f"{status_code}: {detail}"`. -/

/-- An exception escaping a stage inside the endpoint's `try` block. -/
inductive Exc where
  | http (status : Nat) (detail : String) : Exc
  | err (msg : String) : Exc
deriving DecidableEq, Inhabited

/-- `str(e)` for the two kinds of exception (`HTTPException.__str__` is
`f"{self.status_code}: {self.detail}"`). -/
def excStr : Exc → String
  | Exc.http status detail => toString status ++ ": " ++ detail
  | Exc.err msg => msg

/-- The collaborator-backed stages of the pipeline. -/
structure Pipeline where
  extract_text : List Nat → Except String String
  extract_topics_stage : String → Except String (List Topic)
  provider : String → QueryResponse

/-- The uploaded file: its name and raw bytes. -/
structure UploadFileM where
  filename : String
  contents : List Nat
deriving Inhabited

/-- The HTTP outcome of the endpoint. -/
inductive EndpointResult where
  | ok (value : GraphData × List RelatedPaper) : EndpointResult
  | httpError (status : Nat) (detail : String) : EndpointResult
deriving DecidableEq, Inhabited

/-- The body of the endpoint's `try` block, in statement order: size
check, text extraction, empty-text check, topic extraction, empty-topics
check, related-paper search, graph assembly. -/
def tryBody (P : Pipeline) (file : UploadFileM) :
    Except Exc (GraphData × List RelatedPaper) :=
  if file.contents.length > 10 * 1024 * 1024 then
    Except.error (Exc.http 400 "File too large. Please upload a smaller PDF")
  else
    match P.extract_text file.contents with
    | Except.error e => Except.error (Exc.err e)
    | Except.ok text =>
      if strTrim text = "" then
        Except.error (Exc.http 400
          "Could not extract text from PDF. Please make sure it is not scanned or corrupted")
      else
        match P.extract_topics_stage text with
        | Except.error e => Except.error (Exc.err e)
        | Except.ok topics =>
          if topics = [] then
            Except.error (Exc.http 500 "Could not extract topics from the paper")
          else
            Except.ok (create_graph_data file.filename topics
              (find_related_papers P.provider topics))

/-- `analyze_paper(file)`: the `.pdf` filename check runs before the
`try` block and yields a real 400; every exception raised inside the
`try` block — the explicit `HTTPException(400/500, ...)` ones included —
is caught by `except Exception` and re-raised as
`HTTPException(500, str(e))`. -/
def analyze_paper (P : Pipeline) (file : UploadFileM) : EndpointResult :=
  if strEndsWith file.filename (".pdf") = false then
    EndpointResult.httpError 400 "Only PDF files are accepted"
  else
    match tryBody P file with
    | Except.ok v => EndpointResult.ok v
    | Except.error e => EndpointResult.httpError 500 (excStr e)

/-! ## Helper lemmas about the graph assembly -/

/-- Total number of subtopics over all topics. -/
def subtopicTotal (topics : List Topic) : Nat :=
  (topics.map (fun t => t.subs.length)).sum

lemma flatten_topicNodes_length (topics : List Topic) :
    ((topics.map topicNodes).flatten).length
      = topics.length + subtopicTotal topics := by
  induction topics with
  | nil => simp [subtopicTotal]
  | cons t ts ih =>
    simp only [subtopicTotal, List.map_cons, List.flatten_cons, List.length_append,
      List.sum_cons, List.length_cons] at ih ⊢
    simp only [topicNodes, List.length_cons, List.length_map]
    omega

lemma flatten_topicLinks_length (topics : List Topic) :
    ((topics.map topicLinks).flatten).length
      = topics.length + subtopicTotal topics := by
  induction topics with
  | nil => simp [subtopicTotal]
  | cons t ts ih =>
    simp only [subtopicTotal, List.map_cons, List.flatten_cons, List.length_append,
      List.sum_cons, List.length_cons] at ih ⊢
    simp only [topicLinks, List.length_cons, List.length_map]
    omega

lemma countP_main_flatten (topics : List Topic) :
    ((topics.map topicNodes).flatten).countP (fun n => n.group == "main") = 0 := by
  induction topics with
  | nil => simp
  | cons t ts ih =>
    simp only [List.map_cons, List.flatten_cons, List.countP_append, ih,
      Nat.add_zero]
    refine List.countP_eq_zero.mpr ?_
    intro n hn
    simp only [topicNodes, List.mem_cons, List.mem_map] at hn
    rcases hn with rfl | ⟨s, _, rfl⟩ <;> simp [topicNode, subtopicNode]

lemma topicNode_mem_nodes {t : Topic} {topics : List Topic}
    (ht : t ∈ topics) (title : String) (papers : List RelatedPaper) :
    topicNode t ∈ (create_graph_data title topics papers).1.nodes := by
  simp only [create_graph_data, List.mem_cons, List.mem_flatten, List.mem_map]
  exact Or.inr ⟨topicNodes t, ⟨t, ht, rfl⟩, List.mem_cons_self _ _⟩

lemma subtopicNode_mem_nodes {t : Topic} {s : Subtopic} {topics : List Topic}
    (ht : t ∈ topics) (hs : s ∈ t.subs) (title : String)
    (papers : List RelatedPaper) :
    subtopicNode (topicId t) s ∈ (create_graph_data title topics papers).1.nodes := by
  simp only [create_graph_data, List.mem_cons, List.mem_flatten, List.mem_map]
  refine Or.inr ⟨topicNodes t, ⟨t, ht, rfl⟩, ?_⟩
  simp only [topicNodes, List.mem_cons, List.mem_map]
  exact Or.inr ⟨s, hs, rfl⟩

/-! ## Claim C2 -/

/-- C2: for every valid topic tree with 5 topics each having at most 3
subtopics, `create_graph_data` produces exactly `1 + 5 + Σsubtopics`
nodes and exactly `5 + Σsubtopics` edges, and exactly one node has
category `main`. -/
theorem c2_node_and_link_counts (title : String) (topics : List Topic)
    (papers : List RelatedPaper) (h5 : topics.length = 5)
    (h3 : ∀ t ∈ topics, t.subs.length ≤ 3) :
    (create_graph_data title topics papers).1.nodes.length
        = 1 + 5 + subtopicTotal topics
    ∧ (create_graph_data title topics papers).1.links.length
        = 5 + subtopicTotal topics
    ∧ (create_graph_data title topics papers).1.nodes.countP
        (fun n => n.group == "main") = 1 := by
  have hn := flatten_topicNodes_length topics
  have hl := flatten_topicLinks_length topics
  refine ⟨?_, ?_, ?_⟩
  · simp only [create_graph_data, List.length_cons, hn, h5]
    omega
  · simp only [create_graph_data, hl, h5]
  · have h0 := countP_main_flatten topics
    simp only [create_graph_data, List.countP_cons, h0]
    simp [mainNode]

/-- Concrete 5-topic tree with 3 subtopics in total used as a witness. -/
def demo5 : List Topic :=
  [{ topic := "t1", importance := 1, subtopics := some [{ topic := "s1", importance := 2 }] },
   { topic := "t2", importance := 2, subtopics := none },
   { topic := "t3", importance := 3, subtopics := some [] },
   { topic := "t4", importance := 4,
     subtopics := some [{ topic := "s2", importance := 5 }, { topic := "s3", importance := 6 }] },
   { topic := "t5", importance := 5, subtopics := none }]

/-- Witness for C2 at a concrete 5-topic tree. -/
theorem c2_witness :
    (create_graph_data ("T") demo5 []).1.nodes.length = 1 + 5 + subtopicTotal demo5
    ∧ (create_graph_data ("T") demo5 []).1.links.length = 5 + subtopicTotal demo5
    ∧ (create_graph_data ("T") demo5 []).1.nodes.countP
        (fun n => n.group == "main") = 1 :=
  c2_node_and_link_counts ("T") demo5 [] (by decide) (by decide)

/-! ## Claim C6 -/

/-- C6: in every graph produced by `create_graph_data`, the main node
weighs the constant 20, every topic node weighs its topic's importance
times 2, and every subtopic node weighs its subtopic's importance
unscaled. -/
theorem c6_node_weights (title : String) (topics : List Topic)
    (papers : List RelatedPaper) :
    ∀ n ∈ (create_graph_data title topics papers).1.nodes,
      (n.group = "main" → n.val = 20)
      ∧ (n.group = "topic" → ∃ t ∈ topics, n = topicNode t ∧ n.val = t.importance * 2)
      ∧ (n.group = "subtopic" → ∃ t ∈ topics, ∃ s ∈ t.subs,
          n = subtopicNode (topicId t) s ∧ n.val = s.importance) := by
  intro n hn
  simp only [create_graph_data, List.mem_cons, List.mem_flatten, List.mem_map] at hn
  rcases hn with rfl | ⟨L, ⟨t, ht, rfl⟩, hn⟩
  · refine ⟨fun _ => rfl, fun h => ?_, fun h => ?_⟩ <;> simp [mainNode] at h
  · simp only [topicNodes, List.mem_cons, List.mem_map] at hn
    rcases hn with rfl | ⟨s, hs, rfl⟩
    · refine ⟨fun h => ?_, fun _ => ⟨t, ht, rfl, rfl⟩, fun h => ?_⟩ <;>
        simp [topicNode] at h
    · refine ⟨fun h => ?_, fun h => ?_, fun _ => ⟨t, ht, s, hs, rfl, rfl⟩⟩ <;>
        simp [subtopicNode] at h

/-- Witness for C6: the main node of a concrete graph weighs 20 and the
first topic node weighs its importance times 2. -/
theorem c6_witness :
    (mainNode ("T")).val = 20
    ∧ ∃ t ∈ demo5, topicNode (demo5.headD default) = topicNode t
        ∧ (topicNode (demo5.headD default)).val = t.importance * 2 := by
  constructor
  · exact (c6_node_weights ("T") demo5 [] (mainNode ("T"))
      (by simp [create_graph_data])).1 rfl
  · exact (c6_node_weights ("T") demo5 [] (topicNode (demo5.headD default))
      (by decide)).2.1 rfl

/-! ## Claim C7 -/

/-- C7: every edge produced by `create_graph_data` carries as its weight
the importance of the topic or subtopic whose node sits at the edge's
target end (and that node is part of the graph). -/
theorem c7_edge_weights (title : String) (topics : List Topic)
    (papers : List RelatedPaper) :
    ∀ l ∈ (create_graph_data title topics papers).1.links,
      (∃ t ∈ topics, l.target = (topicNode t).id ∧ l.value = t.importance
        ∧ topicNode t ∈ (create_graph_data title topics papers).1.nodes)
      ∨ (∃ t ∈ topics, ∃ s ∈ t.subs, l.target = (subtopicNode (topicId t) s).id
        ∧ l.value = s.importance
        ∧ subtopicNode (topicId t) s ∈ (create_graph_data title topics papers).1.nodes) := by
  intro l hl
  simp only [create_graph_data, List.mem_flatten, List.mem_map] at hl
  obtain ⟨L, ⟨t, ht, rfl⟩, hl⟩ := hl
  simp only [topicLinks, List.mem_cons, List.mem_map] at hl
  rcases hl with rfl | ⟨s, hs, rfl⟩
  · exact Or.inl ⟨t, ht, rfl, rfl, topicNode_mem_nodes ht title papers⟩
  · exact Or.inr ⟨t, ht, s, hs, rfl, rfl, subtopicNode_mem_nodes ht hs title papers⟩

/-- Witness for C7 at the first link of a concrete graph. -/
theorem c7_witness :
    (∃ t ∈ demo5, (mainLink (demo5.headD default)).target = (topicNode t).id
      ∧ (mainLink (demo5.headD default)).value = t.importance
      ∧ topicNode t ∈ (create_graph_data ("T") demo5 []).1.nodes)
    ∨ (∃ t ∈ demo5, ∃ s ∈ t.subs,
        (mainLink (demo5.headD default)).target = (subtopicNode (topicId t) s).id
      ∧ (mainLink (demo5.headD default)).value = s.importance
      ∧ subtopicNode (topicId t) s ∈ (create_graph_data ("T") demo5 []).1.nodes) :=
  c7_edge_weights ("T") demo5 [] (mainLink (demo5.headD default)) (by decide)

/-! ## Claim C9 -/

/-- C9: a paper title of at most 50 characters passes into the main
node's display name unchanged; a longer title becomes its first 50
characters with an ellipsis appended. -/
theorem c9_title_truncation (title : String) (topics : List Topic)
    (papers : List RelatedPaper) :
    ((create_graph_data title topics papers).1.nodes.head?.map Node.name
        = some (shortTitle title))
    ∧ (strLen title ≤ 50 → shortTitle title = title)
    ∧ (50 < strLen title → shortTitle title = strTake title 50 ++ "...") := by
  refine ⟨rfl, fun h => ?_, fun h => ?_⟩
  · simp only [shortTitle, gt_iff_lt, if_neg (by omega : ¬ 50 < strLen title)]
  · simp only [shortTitle, gt_iff_lt, if_pos h]

/-- A 61-character title used by the C9 witness. -/
def longTitle : String :=
  "0123456789012345678901234567890123456789012345678901234567890"

/-- Witness for C9 at a short and at a long concrete title. -/
theorem c9_witness :
    ((create_graph_data ("Paper") [] []).1.nodes.head?.map Node.name
        = some (shortTitle ("Paper")))
    ∧ shortTitle ("Paper") = "Paper"
    ∧ shortTitle longTitle = strTake longTitle 50 ++ "..." :=
  ⟨(c9_title_truncation ("Paper") [] []).1,
   (c9_title_truncation ("Paper") [] []).2.1 (by decide),
   (c9_title_truncation longTitle [] []).2.2 (by decide)⟩

/-! ## Claim C10 -/

/-- C10: a topic record without the `subtopics` key is handled by both
`find_related_papers` (exactly one query) and `create_graph_data`
(exactly one topic node and one main→topic edge), exactly like an empty
subtopic list. -/
theorem c10_missing_subtopics_key (provider : String → QueryResponse)
    (title : String) (papers : List RelatedPaper) (t : Topic)
    (h : t.subtopics = none) :
    allTopics [t] = [t.topic]
    ∧ find_related_papers provider [t] = searchTopic provider t.topic
    ∧ (create_graph_data title [t] papers).1.nodes = [mainNode title, topicNode t]
    ∧ (create_graph_data title [t] papers).1.links = [mainLink t]
    ∧ find_related_papers provider [t]
        = find_related_papers provider [{ t with subtopics := some [] }]
    ∧ create_graph_data title [t] papers
        = create_graph_data title [{ t with subtopics := some [] }] papers := by
  refine ⟨?_, ?_, ?_, ?_, ?_, ?_⟩ <;>
    simp [allTopics, find_related_papers, create_graph_data, topicNodes,
      topicLinks, Topic.subs, h, topicNode, topicId, mainLink]

/-- A topic record without the `subtopics` key. -/
def soloTopic : Topic := { topic := "solo", importance := 5, subtopics := none }

/-- Witness for C10 at a concrete topic without the `subtopics` key. -/
theorem c10_witness :
    allTopics [soloTopic] = [soloTopic.topic]
    ∧ find_related_papers (fun _ => QueryResponse.err) [soloTopic]
        = searchTopic (fun _ => QueryResponse.err) soloTopic.topic
    ∧ (create_graph_data ("T") [soloTopic] []).1.nodes
        = [mainNode ("T"), topicNode soloTopic]
    ∧ (create_graph_data ("T") [soloTopic] []).1.links = [mainLink soloTopic]
    ∧ find_related_papers (fun _ => QueryResponse.err) [soloTopic]
        = find_related_papers (fun _ => QueryResponse.err)
            [{ soloTopic with subtopics := some [] }]
    ∧ create_graph_data ("T") [soloTopic] []
        = create_graph_data ("T") [{ soloTopic with subtopics := some [] }] [] :=
  c10_missing_subtopics_key (fun _ => QueryResponse.err) ("T") [] soloTopic rfl

/-! ## Claim C3: node-id derivation and uniqueness -/

lemma string_data_inj {s t : String} (h : s.data = t.data) : s = t := by
  cases s
  cases t
  exact congrArg String.mk h

lemma strApp_left_cancel {a x y : String} (h : a ++ x = a ++ y) : x = y := by
  apply string_data_inj
  have h2 := congrArg String.data h
  simp only [String.data_append] at h2
  exact List.append_cancel_left h2

/-- Splitting a character-list equation at a separator that occurs in
neither prefix: the prefixes and the suffixes agree. -/
lemma underscore_split : ∀ (a : List Char) {b : List Char} (c : List Char)
    {d : List Char}, ('_') ∉ a → ('_') ∉ c →
    a ++ ('_') :: b = c ++ ('_') :: d → a = c ∧ b = d
  | [], _, [], _, _, _, h => by simpa using h
  | [], _, y :: ys, _, _, hc, h => by
    exfalso
    simp only [List.nil_append, List.cons_append, List.cons.injEq] at h
    exact hc (h.1 ▸ List.mem_cons_self y ys)
  | x :: xs, _, [], _, ha, _, h => by
    exfalso
    simp only [List.cons_append, List.nil_append, List.cons.injEq] at h
    apply ha
    rw [h.1]
    exact List.mem_cons_self _ _
  | x :: xs, b, y :: ys, d, ha, hc, h => by
    simp only [List.cons_append, List.cons.injEq] at h
    have hr := underscore_split xs ys (fun hm => ha (List.mem_cons_of_mem _ hm))
      (fun hm => hc (List.mem_cons_of_mem _ hm)) h.2
    exact ⟨by rw [h.1, hr.1], hr.2⟩

lemma topicId_data (t : Topic) :
    (topicId t).data
      = ('t') :: ('o') :: ('p') :: ('i') :: ('c') :: ('_') :: t.topic.data := by
  simp only [topicId, String.data_append]
  rfl

/-- The fixed prefix of every subtopic id whose parent id is a topic id. -/
def subPrefix : List Char :=
  ('s') :: ('u') :: ('b') :: ('t') :: ('o') :: ('p') :: ('i') :: ('c') :: ('_')
    :: ('t') :: ('o') :: ('p') :: ('i') :: ('c') :: ('_') :: []

lemma subtopicId_data (p : String) (s : Subtopic) :
    (subtopicId p s).data
      = ('s') :: ('u') :: ('b') :: ('t') :: ('o') :: ('p') :: ('i') :: ('c') :: ('_')
        :: (p.data ++ ('_') :: s.topic.data) := by
  simp only [subtopicId, String.data_append, List.append_assoc, List.cons_append,
    List.nil_append]

lemma subtopicId_topicId_data (t : Topic) (s : Subtopic) :
    (subtopicId (topicId t) s).data
      = subPrefix ++ (t.topic.data ++ ('_') :: s.topic.data) := by
  rw [subtopicId_data, topicId_data]
  rfl

lemma main_ne_topicId (t : Topic) : ("main" : String) ≠ topicId t := by
  intro h
  have h2 := congrArg String.data h
  rw [topicId_data] at h2
  injection h2 with h3 _
  exact absurd h3 (by decide)

lemma main_ne_subtopicId (p : String) (s : Subtopic) :
    ("main" : String) ≠ subtopicId p s := by
  intro h
  have h2 := congrArg String.data h
  rw [subtopicId_data] at h2
  injection h2 with h3 _
  exact absurd h3 (by decide)

lemma topicId_ne_subtopicId (t : Topic) (p : String) (s : Subtopic) :
    topicId t ≠ subtopicId p s := by
  intro h
  have h2 := congrArg String.data h
  rw [topicId_data, subtopicId_data] at h2
  injection h2 with h3 _
  exact absurd h3 (by decide)

lemma topicId_inj {t t' : Topic} (h : topicId t = topicId t') :
    t.topic = t'.topic := by
  have h' : ("topic_" : String) ++ t.topic = ("topic_" : String) ++ t'.topic := h
  exact strApp_left_cancel h'

lemma subtopicId_cross {t t' : Topic} {s s' : Subtopic}
    (hf : ('_') ∉ t.topic.data) (hf' : ('_') ∉ t'.topic.data)
    (h : subtopicId (topicId t) s = subtopicId (topicId t') s') :
    t.topic = t'.topic := by
  have h2 := congrArg String.data h
  rw [subtopicId_topicId_data, subtopicId_topicId_data] at h2
  have h3 := List.append_cancel_left h2
  exact string_data_inj (underscore_split _ _ hf hf' h3).1

/-- The node ids contributed by one iteration of the topic loop. -/
def idsOf (t : Topic) : List String :=
  topicId t :: t.subs.map (fun s => subtopicId (topicId t) s)

lemma map_id_topicNodes (t : Topic) : (topicNodes t).map Node.id = idsOf t := by
  simp only [topicNodes, idsOf, List.map_cons, List.map_map]
  rfl

lemma idsOf_nodup (t : Topic) (hsub : ((t.subs).map Subtopic.topic).Nodup) :
    (idsOf t).Nodup := by
  rw [idsOf, List.nodup_cons]
  constructor
  · intro hmem
    simp only [List.mem_map] at hmem
    obtain ⟨s, _, heq⟩ := hmem
    exact topicId_ne_subtopicId t (topicId t) s heq.symm
  · have hfactor : (t.subs.map fun s => subtopicId (topicId t) s)
        = (t.subs.map Subtopic.topic).map
            (fun x => ((("subtopic_" : String) ++ topicId t) ++ "_") ++ x) := by
      rw [List.map_map]
      rfl
    rw [hfactor]
    exact hsub.map (fun x y hxy => strApp_left_cancel hxy)

lemma idsOf_disjoint {t t' : Topic} (hne : t.topic ≠ t'.topic)
    (hf : ('_') ∉ t.topic.data) (hf' : ('_') ∉ t'.topic.data) :
    List.Disjoint (idsOf t) (idsOf t') := by
  intro x hx hx'
  simp only [idsOf, List.mem_cons, List.mem_map] at hx hx'
  rcases hx with rfl | ⟨s, _, rfl⟩
  · rcases hx' with heq | ⟨s', _, heq⟩
    · exact hne (topicId_inj heq)
    · exact topicId_ne_subtopicId t (topicId t') s' heq.symm
  · rcases hx' with heq | ⟨s', _, heq⟩
    · exact topicId_ne_subtopicId t' (topicId t) s heq.symm
    · exact hne (subtopicId_cross hf hf' heq.symm)

/-- C3 (amended): every topic node id is `topic_<name>` and every
subtopic node id is `subtopic_<parentId>_<name>`; when the topic names
are pairwise distinct and contain no underscore, and each topic's
subtopic names are distinct within that topic, all node ids in the graph
are pairwise distinct. -/
theorem c3_node_ids (title : String) (topics : List Topic)
    (papers : List RelatedPaper)
    (hnames : (topics.map Topic.topic).Nodup)
    (hfree : ∀ t ∈ topics, ('_') ∉ t.topic.data)
    (hsubs : ∀ t ∈ topics, ((t.subs).map Subtopic.topic).Nodup) :
    ((create_graph_data title topics papers).1.nodes.map Node.id).Nodup
    ∧ (∀ t ∈ topics, (topicNode t).id = "topic_" ++ t.topic)
    ∧ (∀ t ∈ topics, ∀ s ∈ t.subs,
        (subtopicNode (topicId t) s).id = "subtopic_" ++ topicId t ++ "_" ++ s.topic) := by
  refine ⟨?_, fun t _ => rfl, fun t _ s _ => rfl⟩
  have hfun : (List.map Node.id ∘ topicNodes) = idsOf :=
    funext fun t => map_id_topicNodes t
  have hmap : (create_graph_data title topics papers).1.nodes.map Node.id
      = "main" :: (topics.map idsOf).flatten := by
    simp only [create_graph_data, List.map_cons, List.map_flatten, List.map_map,
      hfun]
    rfl
  rw [hmap, List.nodup_cons]
  constructor
  · intro hmem
    simp only [List.mem_flatten, List.mem_map] at hmem
    obtain ⟨L, ⟨t, _, rfl⟩, hm⟩ := hmem
    simp only [idsOf, List.mem_cons, List.mem_map] at hm
    rcases hm with heq | ⟨s, _, heq⟩
    · exact main_ne_topicId t heq
    · exact main_ne_subtopicId (topicId t) s heq.symm
  · rw [List.nodup_flatten]
    constructor
    · intro L hL
      simp only [List.mem_map] at hL
      obtain ⟨t, ht, rfl⟩ := hL
      exact idsOf_nodup t (hsubs t ht)
    · rw [List.pairwise_map]
      have hp : topics.Pairwise (fun a b => a.topic ≠ b.topic) :=
        List.pairwise_map.mp hnames
      refine List.Pairwise.imp_of_mem ?_ hp
      intro a b ha hb hne
      exact idsOf_disjoint hne (hfree a ha) (hfree b hb)

/-- Two topics whose names are pairwise distinct (and underscore-bearing)
whose derived subtopic ids collide. -/
def badTopics : List Topic :=
  [{ topic := "a_b", importance := 1,
     subtopics := some [{ topic := "c", importance := 1 }] },
   { topic := "a", importance := 1,
     subtopics := some [{ topic := "b_c", importance := 1 }] }]

/-- C3 as stated is false: `badTopics` has pairwise-distinct topic names
and per-topic distinct subtopic names, yet two node ids coincide (both
subtopic ids are `subtopic_topic_a_b_c`). -/
theorem c3_counterexample :
    (badTopics.map Topic.topic).Nodup
    ∧ (∀ t ∈ badTopics, ((t.subs).map Subtopic.topic).Nodup)
    ∧ ¬ ((create_graph_data ("T") badTopics []).1.nodes.map Node.id).Nodup := by
  refine ⟨by decide, by decide, by decide⟩

/-- Witness for the amended C3 at a concrete underscore-free topic tree. -/
theorem c3_witness :
    ((create_graph_data ("T") demo5 []).1.nodes.map Node.id).Nodup
    ∧ (∀ t ∈ demo5, (topicNode t).id = "topic_" ++ t.topic)
    ∧ (∀ t ∈ demo5, ∀ s ∈ t.subs,
        (subtopicNode (topicId t) s).id
          = "subtopic_" ++ topicId t ++ "_" ++ s.topic) :=
  c3_node_ids ("T") demo5 [] (by decide) (by decide) (by decide)

/-! ## Claim C1 -/

/-- A provider call that fails for a query: a raised request, a non-200
status, or an unparseable envelope. -/
def queryFails (provider : String → QueryResponse) (q : String) : Prop :=
  provider q = QueryResponse.err
  ∨ ∃ status body, provider q = QueryResponse.ok status body
      ∧ (status ≠ 200 ∨ body = none)

/-- C1: `find_related_papers` is the concatenation, over queries in
flattening order (all top-level topic names in input order followed by
all subtopic names in input order, without deduplication), of each
query's parsed entries in provider-response order; a failing query
contributes zero entries and does not disturb the remaining queries, and
the function is total. -/
theorem c1_aggregation (provider : String → QueryResponse)
    (topics : List Topic) :
    find_related_papers provider topics
      = ((allTopics topics).map (fun q => searchTopic provider q)).flatten
    ∧ allTopics topics
      = topics.map Topic.topic ++ topics.flatMap (fun t => t.subs.map Subtopic.topic)
    ∧ (∀ q, queryFails provider q → searchTopic provider q = []) := by
  refine ⟨?_, rfl, ?_⟩
  · rw [find_related_papers, List.flatMap_def]
  · intro q hq
    rcases hq with h | ⟨status, body, h, hbad⟩
    · simp [searchTopic, h]
    · rcases hbad with hs | hb
      · simp only [searchTopic, h]
        rw [if_neg hs]
      · subst hb
        simp only [searchTopic, h]
        by_cases hst : status = 200
        · rw [if_pos hst]
        · rw [if_neg hst]

/-- A fully-populated provider entry for the C1 witness. -/
def demoEntry (nm : String) : Entry :=
  { id := some (some ("http://arxiv.org/abs/" ++ nm)),
    title := some (some nm),
    summary := some (some "an abstract"),
    published := some (some "2020-01-02T00:00:00Z"),
    authors := [some (some "Ann Author")] }

/-- A provider whose second query raises and whose other queries return
one entry each. -/
def isoProvider : String → QueryResponse := fun q =>
  if q = "q2" then QueryResponse.err
  else QueryResponse.ok 200 (some [demoEntry q])

/-- Three single-query topics for the C1 witness. -/
def isoTopics : List Topic :=
  [{ topic := "q1", importance := 1, subtopics := none },
   { topic := "q2", importance := 1, subtopics := none },
   { topic := "q3", importance := 1, subtopics := none }]

/-- Witness for C1: with query 2 failing, the result holds exactly the
entries of queries 1 and 3 in that order. -/
theorem c1_witness :
    find_related_papers isoProvider isoTopics
      = ((allTopics isoTopics).map (fun q => searchTopic isoProvider q)).flatten
    ∧ searchTopic isoProvider ("q2") = []
    ∧ find_related_papers isoProvider isoTopics
        = [{ id := "q1", title := "q1", summary := "an abstract",
             published := "2020-01-02", authors := ["Ann Author"], topic := "q1" },
           { id := "q3", title := "q3", summary := "an abstract",
             published := "2020-01-02", authors := ["Ann Author"], topic := "q3" }] :=
  ⟨(c1_aggregation isoProvider isoTopics).1,
   (c1_aggregation isoProvider isoTopics).2.2 ("q2") (Or.inl rfl),
   by decide⟩

/-! ## Claim C8 -/

/-- An entry none of whose present child elements carries a `None` text
(the separate malformed-item failure mode the per-entry handler skips). -/
def Entry.clean (e : Entry) : Prop :=
  e.id ≠ some none ∧ e.title ≠ some none ∧ e.summary ≠ some none
  ∧ e.published ≠ some none ∧ ∀ a ∈ e.authors, a ≠ some none

lemma fieldOr_of_ne {x : Option (Option String)} (h : x ≠ some none)
    (f : String → String) (sentinel : String) :
    ∃ v, fieldOr x f sentinel = some v ∧ (x = none → v = sentinel) := by
  match x with
  | none => exact ⟨sentinel, rfl, fun _ => rfl⟩
  | some none => exact absurd rfl h
  | some (some t) => exact ⟨f t, rfl, fun hx => Option.noConfusion hx⟩

lemma collectAuthors_of_clean {as : List (Option (Option String))}
    (h : ∀ a ∈ as, a ≠ some none) :
    ∃ ls, collectAuthors as = some ls := by
  induction as with
  | nil => exact ⟨[], rfl⟩
  | cons a as ih =>
    obtain ⟨ls, hls⟩ := ih (fun x hx => h x (List.mem_cons_of_mem _ hx))
    have ha := h a (List.mem_cons_self _ _)
    have hb : ∃ b, processAuthor a = some b := by
      match a with
      | none => exact ⟨[], rfl⟩
      | some none => exact absurd rfl ha
      | some (some t) => exact ⟨[strTrim t], rfl⟩
    obtain ⟨b, hb⟩ := hb
    exact ⟨b ++ ls, by simp [collectAuthors, hb, hls]⟩

/-- C8: a clean provider entry with a missing id, title, summary or
published-date element yields a `RelatedPaper` carrying the documented
sentinel string in that field; the entry is neither dropped nor does the
processing fail. -/
theorem c8_missing_field_sentinels (topicName : String) (e : Entry)
    (hc : e.clean) :
    ∃ p, processEntry topicName e = some p
      ∧ p.topic = topicName
      ∧ (e.id = none → p.id = "id not found")
      ∧ (e.title = none → p.title = "title not found")
      ∧ (e.summary = none → p.summary = "no abstract available")
      ∧ (e.published = none → p.published = "date not available") := by
  obtain ⟨h1, h2, h3, h4, h5⟩ := hc
  obtain ⟨v1, hv1, hs1⟩ := fieldOr_of_ne h1
    (fun t => (strSplit t ('/')).getLastD "") "id not found"
  obtain ⟨v2, hv2, hs2⟩ := fieldOr_of_ne h2 strTrim "title not found"
  obtain ⟨v3, hv3, hs3⟩ := fieldOr_of_ne h3 strTrim "no abstract available"
  obtain ⟨v4, hv4, hs4⟩ := fieldOr_of_ne h4
    (fun t => (strSplit t ('T')).headD "") "date not available"
  obtain ⟨ls, hls⟩ := collectAuthors_of_clean h5
  refine ⟨{ id := v1, title := v2, summary := v3, published := v4,
            authors := ls, topic := topicName }, ?_, rfl, hs1, hs2, hs3, hs4⟩
  simp only [processEntry, hv1, hv2, hv3, hv4, hls, Option.bind_eq_bind,
    Option.some_bind, Option.pure_def]

/-- A provider entry lacking its id and title elements. -/
def titlelessEntry : Entry :=
  { id := none, title := none, summary := some (some " An abstract. "),
    published := some (some "2020-01-02T00:00:00Z"), authors := [] }

/-- Witness for C8: the titleless entry is parsed, not dropped, and both
absent fields receive their sentinels. -/
theorem c8_witness :
    ∃ p, processEntry ("neural networks") titlelessEntry = some p
      ∧ p.id = "id not found" ∧ p.title = "title not found" := by
  obtain ⟨p, hp, _, hid, htitle, _, _⟩ :=
    c8_missing_field_sentinels ("neural networks") titlelessEntry
      (by refine ⟨?_, ?_, ?_, ?_, ?_⟩ <;> decide)
  exact ⟨p, hp, hid rfl, htitle rfl⟩

/-! ## Claim C5 -/

/-- C5: `extract_topics` parses the trimmed oracle reply with the
`json.loads` model; an unparseable reply or a reply whose top-level value
is not an array makes it fail, and it succeeds only when the trimmed
reply parses to an array. -/
theorem c5_extract_topics_rejects (reply : String) :
    (json_loads (strTrim reply) = none →
      extract_topics reply = Except.error "json decode error: expecting value")
    ∧ (∀ j, json_loads (strTrim reply) = some j → (∀ xs, j ≠ Json.arr xs) →
      ∃ msg, extract_topics reply = Except.error msg)
    ∧ (∀ ts, extract_topics reply = Except.ok ts →
      json_loads (strTrim reply) = some (Json.arr ts)) := by
  refine ⟨?_, ?_, ?_⟩
  · intro h
    simp [extract_topics, h]
  · intro j hj hnot
    cases j with
    | arr xs => exact absurd rfl (hnot xs)
    | null =>
      exact ⟨"openai did not return a list of topics", by simp [extract_topics, hj]⟩
    | bool b =>
      exact ⟨"openai did not return a list of topics", by simp [extract_topics, hj]⟩
    | num lx =>
      exact ⟨"openai did not return a list of topics", by simp [extract_topics, hj]⟩
    | str v =>
      exact ⟨"openai did not return a list of topics", by simp [extract_topics, hj]⟩
    | obj ms =>
      exact ⟨"openai did not return a list of topics", by simp [extract_topics, hj]⟩
  · intro ts hts
    unfold extract_topics at hts
    cases hjl : json_loads (strTrim reply) with
    | none => rw [hjl] at hts; cases hts
    | some j =>
      rw [hjl] at hts
      cases j with
      | arr xs =>
        have hx : xs = ts := by
          injection hts
        rw [← hx]
      | null => cases hts
      | bool b => cases hts
      | num lx => cases hts
      | str v => cases hts
      | obj ms => cases hts

/-- Witness for C5: the reply `not json` is rejected as invalid JSON and
the reply holding a JSON object is rejected as not a list. -/
theorem c5_witness :
    extract_topics ("not json")
        = Except.error "json decode error: expecting value"
    ∧ ∃ msg, extract_topics ("{}") = Except.error msg :=
  ⟨(c5_extract_topics_rejects ("not json")).1 rfl,
   (c5_extract_topics_rejects ("{}")).2.1 (Json.obj []) rfl
     (fun _ h => Json.noConfusion h)⟩

/-! ## Claim C4 -/

/-- Any upload whose payload exceeds the 10 MiB bound is answered with
status 500 carrying `400: File too large. ...`, whatever the pipeline
stages are: the `HTTPException(400, ...)` raised by the size check inside
the `try` block is caught by the blanket `except Exception` and re-raised
as `HTTPException(500, str(e))`. -/
theorem analyze_oversized (P : Pipeline) (file : UploadFileM)
    (hpdf : strEndsWith file.filename (".pdf") = true)
    (hbig : file.contents.length > 10 * 1024 * 1024) :
    analyze_paper P file
      = EndpointResult.httpError 500
          ("400: File too large. Please upload a smaller PDF") := by
  unfold analyze_paper
  rw [hpdf]
  rw [if_neg (by simp : ¬ ((true : Bool) = false))]
  unfold tryBody
  rw [if_pos hbig]
  rfl

/-- A 15 MiB upload with a `.pdf` filename. -/
def oversizedFile : UploadFileM :=
  { filename := "big.pdf", contents := List.replicate (15 * 1024 * 1024) 0 }

/-- C4 (actual behaviour): the 15 MiB upload is turned away before any
stage runs — the result does not depend on the pipeline stages — but the
status sent to the client is 500, not the 4xx the claim requires. -/
theorem c4_oversized_upload (P : Pipeline) :
    oversizedFile.contents.length = 15 * 1024 * 1024
    ∧ analyze_paper P oversizedFile
        = EndpointResult.httpError 500
            ("400: File too large. Please upload a smaller PDF") := by
  have hlen : oversizedFile.contents.length = 15 * 1024 * 1024 := by
    show (List.replicate (15 * 1024 * 1024) (0 : Nat)).length = 15 * 1024 * 1024
    rw [List.length_replicate]
  refine ⟨hlen, analyze_oversized P oversizedFile ?_ ?_⟩
  · show strEndsWith ("big.pdf") (".pdf") = true
    decide
  · rw [hlen]
    norm_num

end Artvis
